import Mathlib

/-!
Verification of the Stripe subscription pricing service
(`StripeSubscriptionService` in the pinelab vendure plugins repository).

The pricing calculator `getSubscriptionPricing`, the webhook handler
`handlePaymentCompleteEvent` and the subscription-creation loop
`createSubscriptions` are embedded as pure Lean functions.  JavaScript
numbers are modelled as rationals (all arithmetic appearing in the source
is exact on the values the claims quantify over); dates are modelled as
integer epoch days; thrown errors become `Except` values.

The helper utilities `getDayRate`, `getNextStartDate`,
`getDaysUntilNextStartDate` (from `./util`) and the static `schedules`
list (from `./schedules`) are not part of the provided sources; they are
modelled from the specification where needed and marked as such.
-/

namespace Pinelab

/-- Billing/duration interval unit of a schedule (day/week/month/year). -/
inductive Interval where
  | day
  | week
  | month
  | year
deriving DecidableEq, Repr

/-- Modelled from the spec: the start-date policy of a schedule (the
"recurrence anchor"); the concrete `schedules.ts` is not among the
provided sources.  Two policies: start at the next beginning of a billing
interval, or start at the time of purchase. -/
inductive StartDatePolicy where
  | startOfBillingInterval
  | timeOfPurchase
deriving DecidableEq, Repr

/-- A named billing schedule, as configured statically in `schedules.ts`
(structure modelled from the spec data model, section 3: `billingInterval`,
`billingCount`, `durationInterval`, `durationCount`, `downpayment` in
minor units, `startDate` policy, looked up by `name`). -/
structure Schedule where
  name : String
  downpayment : ℚ
  durationInterval : Interval
  durationCount : ℚ
  startDate : StartDatePolicy
  billingInterval : Interval
  billingCount : ℚ
deriving DecidableEq, Repr

/-- A product variant with the subscription custom fields used by the
service: its price (minor units) and the name of its schedule
(`customFields.subscriptionSchedule`, possibly unset). -/
structure VariantWithSubscriptionFields where
  id : Nat
  price : ℚ
  name : String
  subscriptionSchedule : Option String
deriving DecidableEq, Repr

/-- `StripeSubscriptionPricingInput` (GraphQL input): every field is
optional (`Partial` in the source). -/
structure StripeSubscriptionPricingInput where
  productVariantId : Option Nat := none
  downpayment : Option ℚ := none
  startDate : Option ℤ := none
deriving DecidableEq, Repr

/-- The `StripeSubscriptionPricing` result returned by
`getSubscriptionPricing`. -/
structure StripeSubscriptionPricing where
  downpayment : ℚ
  totalProratedAmount : ℚ
  proratedDays : ℤ
  dayRate : ℚ
  recurringPrice : ℤ
  interval : Interval
  intervalCount : ℚ
  amountDueNow : ℚ
  subscriptionStartDate : ℤ
deriving DecidableEq, Repr

/-- The errors `getSubscriptionPricing` (and `getSchedule`) can throw. -/
inductive PricingError where
  | missingInput
  | variantNotFound (id : Nat)
  | noScheduleFound (name : Option String)
  | notImplementedMixedIntervals
deriving DecidableEq, Repr

/-- Modelled from the spec: number of days in one interval unit, used by
the day-rate helper in `./util` (absent from the provided sources). -/
def intervalDays : Interval → ℚ
  | .day => 1
  | .week => 7
  | .month => 30
  | .year => 365

/-- Modelled from the spec: `getDayRate` from `./util` (absent from the
provided sources): day rate is the total subscription price divided by the
number of days in one duration cycle (spec section 4.1 step 4 and the
glossary entry for day rate). -/
def getDayRate (totalPrice : ℚ) (durationInterval : Interval)
    (durationCount : ℚ) : ℚ :=
  totalPrice / (intervalDays durationInterval * durationCount)

/-- Modelled from the spec: `getNextStartDate` from `./util` (absent from
the provided sources): the next calendar date matching the configured
recurrence anchor on/after `now` (spec section 4.1 step 7).  Dates are
epoch days. -/
def getNextStartDate (now : ℤ) (billingInterval : Interval)
    (policy : StartDatePolicy) : ℤ :=
  match policy with
  | .timeOfPurchase => now
  | .startOfBillingInterval =>
    let len : ℤ := (intervalDays billingInterval).num
    now + (len - now % len) % len

/-- Modelled from the spec: `getDaysUntilNextStartDate` from `./util`
(absent from the provided sources): the number of whole calendar days
between the effective start input and the subscription start date (spec
section 4.1 step 8). -/
def getDaysUntilNextStartDate (fromDate toDate : ℤ) : ℤ :=
  toDate - fromDate

/-- `schedule.durationCount / schedule.billingCount` as computed at line
169 of the service; JavaScript division of numbers, hence exact here. -/
def billingsPerDuration (s : Schedule) : ℚ :=
  s.durationCount / s.billingCount

/-- The effective downpayment:
`input?.downpayment || input?.downpayment === 0 ? input.downpayment :
schedule.downpayment` — the input value whenever one is present
(including an explicit 0), the schedule default otherwise. -/
def effectiveDownpayment (input : Option StripeSubscriptionPricingInput)
    (s : Schedule) : ℚ :=
  match input.bind (·.downpayment) with
  | some d => d
  | none => s.downpayment

/-- The arithmetic part of `getSubscriptionPricing` (lines 169-204),
executed after the variant, the schedule and the equal-interval check have
succeeded. -/
def computePricing (price : ℚ) (s : Schedule)
    (input : Option StripeSubscriptionPricingInput) (now : ℤ) :
    StripeSubscriptionPricing :=
  let bpd := billingsPerDuration s
  let totalSubscriptionPrice := price * bpd
  let dayRate := getDayRate totalSubscriptionPrice s.durationInterval s.durationCount
  let downpayment := effectiveDownpayment input s
  let recurringPrice := ⌊price - downpayment / bpd⌋
  let subscriptionStartDate := getNextStartDate now s.billingInterval s.startDate
  let daysUntilStart :=
    getDaysUntilNextStartDate ((input.bind (·.startDate)).getD now)
      subscriptionStartDate
  let totalProratedAmount := (daysUntilStart : ℚ) * dayRate
  { downpayment := downpayment
    totalProratedAmount := totalProratedAmount
    proratedDays := daysUntilStart
    dayRate := dayRate
    recurringPrice := recurringPrice
    interval := s.billingInterval
    intervalCount := s.billingCount
    amountDueNow := downpayment + totalProratedAmount
    subscriptionStartDate := subscriptionStartDate }

/-- Variant resolution at the top of `getSubscriptionPricing`
(lines 145-160): the given variant if any; otherwise look it up by
`input.productVariantId`, throwing when neither is available or the lookup
finds nothing. -/
def resolveVariant (variants : List VariantWithSubscriptionFields)
    (variant0 : Option VariantWithSubscriptionFields)
    (productVariantId : Option Nat) :
    Except PricingError VariantWithSubscriptionFields :=
  match variant0 with
  | some v => .ok v
  | none =>
    match productVariantId with
    | none => .error .missingInput
    | some pvid =>
      match variants.find? (fun v => v.id == pvid) with
      | some v => .ok v
      | none => .error (.variantNotFound pvid)

/-- `getSchedule` (lines 207-217): find the configured schedule whose name
equals the variant's `customFields.subscriptionSchedule`, throwing
"no schedule found" otherwise. -/
def getSchedule (schedules : List Schedule)
    (variant : VariantWithSubscriptionFields) :
    Except PricingError Schedule :=
  match schedules.find? (fun s => variant.subscriptionSchedule == some s.name) with
  | some s => .ok s
  | none => .error (.noScheduleFound variant.subscriptionSchedule)

/-- `getSubscriptionPricing` (lines 140-205).  `schedules` is the static
list from `schedules.ts`, `variants` the variant store behind
`variantService.findOne`, `now` the current date read inside the source
(`new Date()`), made explicit here. -/
def getSubscriptionPricing (schedules : List Schedule)
    (variants : List VariantWithSubscriptionFields) (now : ℤ)
    (input : Option StripeSubscriptionPricingInput)
    (variant0 : Option VariantWithSubscriptionFields) :
    Except PricingError StripeSubscriptionPricing :=
  match resolveVariant variants variant0 (input.bind (·.productVariantId)) with
  | .error e => .error e
  | .ok variant =>
    match getSchedule schedules variant with
    | .error e => .error e
    | .ok schedule =>
      if schedule.billingInterval ≠ schedule.durationInterval then
        .error .notImplementedMixedIntervals
      else
        .ok (computePricing variant.price schedule input now)

/-! ## Webhook handling (`handlePaymentCompleteEvent`, lines 251-340)

The handler's effects on the system — enqueued jobs, order state
transitions, added payments, order-history notes — are modelled as
explicit state; framework calls that can fail (state transition, adding
the payment, signature validation) are given their outcomes through an
environment record. -/

/-- The metadata carried by the incoming webhook's event object. -/
structure WebhookMetadata where
  orderCode : Option String := none
  channelToken : Option String := none
  amount : Option ℚ := none
deriving DecidableEq, Repr

/-- The event object (`data.object`) of an incoming Stripe webhook. -/
structure WebhookEventData where
  id : String
  customer : Option String := none
  payment_method : String
  metadata : WebhookMetadata
deriving DecidableEq, Repr

/-- An incoming Stripe webhook: its `type` and its event data. -/
structure IncomingStripeWebhook where
  type : String
  eventData : WebhookEventData
deriving DecidableEq, Repr

/-- An order as far as the handler observes and changes it. -/
structure OrderRecord where
  code : String
  state : String
deriving DecidableEq, Repr

/-- The `JobData` pushed on the `stripe-subscription` job queue. -/
structure JobData where
  action : String
  orderCode : String
  stripeCustomerId : String
  stripePaymentMethodId : String
deriving DecidableEq, Repr

/-- A payment added to an order by `orderService.addPaymentToOrder`. -/
structure PaymentRecord where
  orderCode : String
  method : String
  setupIntentId : String
  amount : Option ℚ
deriving DecidableEq, Repr

/-- The state the handler can observe and mutate: the order store, the
job queue, the payments added, and the order-history notes. -/
structure ServiceState where
  orders : List OrderRecord
  jobs : List JobData
  payments : List PaymentRecord
  history : List String
deriving DecidableEq, Repr

/-- Outcomes of the framework/Stripe calls the handler makes, plus the
plugin option controlling signature checking. -/
structure HandlerEnv where
  disableWebhookSignatureChecking : Bool
  signatureValid : Bool
  paymentMethodCode : String
  transitionSucceeds : Bool
  addPaymentSucceeds : Bool
deriving DecidableEq, Repr

/-- The tail of the handler (lines 319-339): add the payment to the
order; an `ErrorResult` becomes a thrown error. -/
def addPaymentStep (env : HandlerEnv) (st : ServiceState) (orderCode : String)
    (eventData : WebhookEventData) : ServiceState × Option String :=
  if env.addPaymentSucceeds then
    ({ st with
        payments := st.payments ++
          [{ orderCode := orderCode
             method := env.paymentMethodCode
             setupIntentId := eventData.id
             amount := eventData.metadata.amount }] }, none)
  else
    (st, some "Error adding payment to order")

/-- `handlePaymentCompleteEvent` (lines 251-340).  Returns the new state
and `none` on normal return, or the state reached so far and `some`
error when the source throws. -/
def handlePaymentCompleteEvent (env : HandlerEnv) (st : ServiceState)
    (webhook : IncomingStripeWebhook) : ServiceState × Option String :=
  if webhook.type ≠ "setup_intent.succeeded" then
    (st, none)
  else
    match webhook.eventData.metadata.orderCode with
    | none => (st, some "Incoming webhook is missing metadata.orderCode")
    | some orderCode =>
      match webhook.eventData.metadata.channelToken with
      | none => (st, some "Incoming webhook is missing metadata.channelToken")
      | some _channelToken =>
        match st.orders.find? (fun o => o.code == orderCode) with
        | none => (st, some "Cannot find order with code")
        | some order =>
          match webhook.eventData.customer with
          | none =>
            ({ st with
                history := st.history ++
                  ["No customer ID found in incoming webhook. Can not create subscriptions for this order."] },
              some "No customer found in webhook data")
          | some customerId =>
            if ¬env.disableWebhookSignatureChecking ∧ ¬env.signatureValid then
              (st, some "Invalid webhook signature")
            else
              let st1 := { st with
                jobs := st.jobs ++
                  [{ action := "createSubscriptionsForOrder"
                     orderCode := orderCode
                     stripeCustomerId := customerId
                     stripePaymentMethodId := webhook.eventData.payment_method }] }
              if order.state ≠ "ArrangingPayment" then
                if env.transitionSucceeds then
                  let st2 := { st1 with
                    orders := st1.orders.map (fun o =>
                      if o.code == orderCode then { o with state := "ArrangingPayment" }
                      else o) }
                  addPaymentStep env st2 orderCode webhook.eventData
                else
                  (st1, some "Error transitioning order")
              else
                addPaymentStep env st1 orderCode webhook.eventData

/-! ## Subscription creation (`createSubscriptions`, lines 345-443) -/

/-- One call to `stripeClient.createOffSessionSubscription`. -/
structure SubscriptionCall where
  amount : ℚ
  interval : Interval
  intervalCount : ℚ
  startDate : ℤ
  proration : Bool
  description : String
deriving DecidableEq, Repr

/-- The loop body of `createSubscriptions` (lines 369-431) for one order
line: recompute the pricing for the line's variant (no input override),
create the recurring subscription, and — only when `pricing.downpayment`
is truthy, i.e. nonzero — create a second, non-prorated downpayment
subscription with the schedule's duration interval and count. -/
def subscriptionsForLine (schedules : List Schedule) (now : ℤ)
    (variant : VariantWithSubscriptionFields) :
    Except PricingError (List SubscriptionCall) :=
  match getSubscriptionPricing schedules [] now none (some variant) with
  | .error e => .error e
  | .ok pricing =>
    let recurring : SubscriptionCall :=
      { amount := (pricing.recurringPrice : ℚ)
        interval := pricing.interval
        intervalCount := pricing.intervalCount
        startDate := pricing.subscriptionStartDate
        proration := true
        description := variant.name }
    if pricing.downpayment ≠ 0 then
      match getSchedule schedules variant with
      | .error e => .error e
      | .ok schedule =>
        .ok [recurring,
          { amount := pricing.downpayment
            interval := schedule.durationInterval
            intervalCount := schedule.durationCount
            startDate := pricing.subscriptionStartDate
            proration := false
            description := "Downpayment" }]
    else
      .ok [recurring]

/-- `createSubscriptions` restricted to its per-line subscription
creation: process the order lines in order, stopping at the first
error. -/
def createSubscriptions (schedules : List Schedule) (now : ℤ)
    (lines : List VariantWithSubscriptionFields) :
    Except PricingError (List SubscriptionCall) :=
  match lines with
  | [] => .ok []
  | v :: rest =>
    match subscriptionsForLine schedules now v with
    | .error e => .error e
    | .ok calls =>
      match createSubscriptions schedules now rest with
      | .error e => .error e
      | .ok more => .ok (calls ++ more)

/-! ## Concrete fixtures used to exercise the model -/

/-- A plain monthly schedule: 1-month billing, 1-month duration, no
downpayment (the worked example of spec section 8). -/
def exSchedule : Schedule :=
  { name := "monthly"
    downpayment := 0
    durationInterval := .month
    durationCount := 1
    startDate := .timeOfPurchase
    billingInterval := .month
    billingCount := 1 }

/-- A schedule with mixed intervals: monthly billing inside a yearly
duration (the unsupported configuration). -/
def exMixedSchedule : Schedule :=
  { name := "mixed"
    downpayment := 0
    durationInterval := .year
    durationCount := 1
    startDate := .timeOfPurchase
    billingInterval := .month
    billingCount := 1 }

/-- A schedule whose duration count (3) is not evenly divisible by its
billing count (2). -/
def exOddSchedule : Schedule :=
  { name := "odd"
    downpayment := 0
    durationInterval := .month
    durationCount := 3
    startDate := .timeOfPurchase
    billingInterval := .month
    billingCount := 2 }

/-- A six-month schedule with a nonzero downpayment, billed monthly. -/
def exDownpaymentSchedule : Schedule :=
  { name := "six-month-downpayment"
    downpayment := 1990
    durationInterval := .month
    durationCount := 6
    startDate := .timeOfPurchase
    billingInterval := .month
    billingCount := 1 }

/-- A variant priced 12000 minor units on the monthly schedule. -/
def exVariant : VariantWithSubscriptionFields :=
  { id := 1
    price := 12000
    name := "Monthly subscription"
    subscriptionSchedule := some "monthly" }

/-- A variant on the mixed-interval schedule. -/
def exMixedVariant : VariantWithSubscriptionFields :=
  { id := 2
    price := 12000
    name := "Mixed subscription"
    subscriptionSchedule := some "mixed" }

/-- A variant on the odd-ratio schedule. -/
def exOddVariant : VariantWithSubscriptionFields :=
  { id := 3
    price := 12000
    name := "Odd subscription"
    subscriptionSchedule := some "odd" }

/-- A variant on the downpayment schedule. -/
def exDownpaymentVariant : VariantWithSubscriptionFields :=
  { id := 4
    price := 9000
    name := "Downpayment subscription"
    subscriptionSchedule := some "six-month-downpayment" }

/-- A variant whose schedule name matches nothing configured. -/
def exOrphanVariant : VariantWithSubscriptionFields :=
  { id := 5
    price := 100
    name := "Orphan"
    subscriptionSchedule := some "does-not-exist" }

/-- The pricing result of the monthly fixture at `now = 0`. -/
def exPricing : StripeSubscriptionPricing :=
  computePricing exVariant.price exSchedule none 0

/-- The pricing result of the downpayment fixture at `now = 0`. -/
def exDpPricing : StripeSubscriptionPricing :=
  computePricing exDownpaymentVariant.price exDownpaymentSchedule none 0

/-- An incoming webhook of a different event type. -/
def exIgnoredWebhook : IncomingStripeWebhook :=
  { type := "payment_intent.succeeded"
    eventData :=
      { id := "seti_1"
        payment_method := "pm_1"
        metadata := { orderCode := some "ORD1", channelToken := some "ch1" } } }

/-- A service state with one order awaiting payment. -/
def exState : ServiceState :=
  { orders := [{ code := "ORD1", state := "AddingItems" }]
    jobs := []
    payments := []
    history := [] }

/-- A handler environment where every framework call succeeds. -/
def exEnv : HandlerEnv :=
  { disableWebhookSignatureChecking := false
    signatureValid := true
    paymentMethodCode := "stripe-subscription-payment"
    transitionSucceeds := true
    addPaymentSucceeds := true }

/-- Inversion: a successful run of `getSubscriptionPricing` means the
variant resolved, its schedule was found, the intervals were equal, and
the result is the arithmetic of `computePricing`. -/
theorem getSubscriptionPricing_ok_iff {schedules : List Schedule}
    {variants : List VariantWithSubscriptionFields} {now : ℤ}
    {input : Option StripeSubscriptionPricingInput}
    {variant0 : Option VariantWithSubscriptionFields}
    {r : StripeSubscriptionPricing} :
    getSubscriptionPricing schedules variants now input variant0 = .ok r ↔
      ∃ v s,
        resolveVariant variants variant0 (input.bind (·.productVariantId)) = .ok v ∧
        getSchedule schedules v = .ok s ∧
        s.billingInterval = s.durationInterval ∧
        r = computePricing v.price s input now := by
  unfold getSubscriptionPricing
  cases h1 : resolveVariant variants variant0 (input.bind (·.productVariantId)) with
  | error e => simp [h1]
  | ok v =>
    cases h2 : getSchedule schedules v with
    | error e => simp [h1, h2]
    | ok s =>
      by_cases h3 : s.billingInterval = s.durationInterval
      · simp [h1, h2, h3, eq_comm]
      · simp [h1, h2, h3]

/-- C1: the pricing calculator is deterministic — two calls of
`getSubscriptionPricing` with identical schedules, variant store, `now`,
input and variant agree on every field of the `PricingResult`
(downpayment, totalProratedAmount, proratedDays, dayRate, recurringPrice,
interval, intervalCount, amountDueNow, subscriptionStartDate). -/
theorem pricing_deterministic (schedules : List Schedule)
    (variants : List VariantWithSubscriptionFields) (now : ℤ)
    (input : Option StripeSubscriptionPricingInput)
    (variant0 : Option VariantWithSubscriptionFields)
    (r1 r2 : StripeSubscriptionPricing)
    (h1 : getSubscriptionPricing schedules variants now input variant0 = .ok r1)
    (h2 : getSubscriptionPricing schedules variants now input variant0 = .ok r2) :
    r1.downpayment = r2.downpayment ∧
    r1.totalProratedAmount = r2.totalProratedAmount ∧
    r1.proratedDays = r2.proratedDays ∧
    r1.dayRate = r2.dayRate ∧
    r1.recurringPrice = r2.recurringPrice ∧
    r1.interval = r2.interval ∧
    r1.intervalCount = r2.intervalCount ∧
    r1.amountDueNow = r2.amountDueNow ∧
    r1.subscriptionStartDate = r2.subscriptionStartDate := by
  have h : r1 = r2 := by
    rw [h1] at h2
    exact Except.ok.inj h2
  subst h
  exact ⟨rfl, rfl, rfl, rfl, rfl, rfl, rfl, rfl, rfl⟩

/-- Witness for C1 at the monthly fixture. -/
theorem pricing_deterministic_witness :
    exPricing.downpayment = exPricing.downpayment ∧
    exPricing.totalProratedAmount = exPricing.totalProratedAmount ∧
    exPricing.proratedDays = exPricing.proratedDays ∧
    exPricing.dayRate = exPricing.dayRate ∧
    exPricing.recurringPrice = exPricing.recurringPrice ∧
    exPricing.interval = exPricing.interval ∧
    exPricing.intervalCount = exPricing.intervalCount ∧
    exPricing.amountDueNow = exPricing.amountDueNow ∧
    exPricing.subscriptionStartDate = exPricing.subscriptionStartDate :=
  pricing_deterministic [exSchedule] [] 0 none (some exVariant)
    exPricing exPricing rfl rfl

/-- C2: when the resolved schedule has `billingInterval` different from
`durationInterval`, the calculator fails with the explicit
not-implemented error and never returns a `PricingResult`. -/
theorem mixed_intervals_rejected (schedules : List Schedule)
    (variants : List VariantWithSubscriptionFields) (now : ℤ)
    (input : Option StripeSubscriptionPricingInput)
    (variant0 : Option VariantWithSubscriptionFields)
    (v : VariantWithSubscriptionFields) (s : Schedule)
    (hv : resolveVariant variants variant0 (input.bind (·.productVariantId)) = .ok v)
    (hs : getSchedule schedules v = .ok s)
    (hne : s.billingInterval ≠ s.durationInterval) :
    getSubscriptionPricing schedules variants now input variant0 =
      .error .notImplementedMixedIntervals := by
  unfold getSubscriptionPricing
  simp [hv, hs, hne]

/-- Witness for C2: billingInterval=month, durationInterval=year. -/
theorem mixed_intervals_rejected_witness :
    getSubscriptionPricing [exMixedSchedule] [] 0 none (some exMixedVariant) =
      .error .notImplementedMixedIntervals :=
  mixed_intervals_rejected [exMixedSchedule] [] 0 none (some exMixedVariant)
    exMixedVariant exMixedSchedule rfl rfl (by decide)

/-- C3: the effective downpayment is the input's downpayment whenever the
input provides one (an explicit 0 included), and the schedule's
downpayment when the input omits the field. -/
theorem downpayment_override (schedules : List Schedule)
    (variants : List VariantWithSubscriptionFields) (now : ℤ)
    (input : Option StripeSubscriptionPricingInput)
    (variant0 : Option VariantWithSubscriptionFields)
    (v : VariantWithSubscriptionFields) (s : Schedule)
    (hv : resolveVariant variants variant0 (input.bind (·.productVariantId)) = .ok v)
    (hs : getSchedule schedules v = .ok s)
    (heq : s.billingInterval = s.durationInterval) :
    ∃ r, getSubscriptionPricing schedules variants now input variant0 = .ok r ∧
      (∀ d, input.bind (·.downpayment) = some d → r.downpayment = d) ∧
      (input.bind (·.downpayment) = none → r.downpayment = s.downpayment) := by
  refine ⟨computePricing v.price s input now,
    getSubscriptionPricing_ok_iff.mpr ⟨v, s, hv, hs, heq, rfl⟩, ?_, ?_⟩
  · intro d hd
    simp [computePricing, effectiveDownpayment, hd]
  · intro hd
    simp [computePricing, effectiveDownpayment, hd]

/-- Witness for C3: an input with an explicit downpayment of 0 overrides
the schedule default. -/
theorem downpayment_override_witness :
    ∃ r, getSubscriptionPricing [exDownpaymentSchedule] [] 0
        (some { downpayment := some 0 }) (some exDownpaymentVariant) = .ok r ∧
      (∀ d, (some { downpayment := some 0 } :
          Option StripeSubscriptionPricingInput).bind (·.downpayment) = some d →
        r.downpayment = d) ∧
      ((some { downpayment := some 0 } :
          Option StripeSubscriptionPricingInput).bind (·.downpayment) = none →
        r.downpayment = exDownpaymentSchedule.downpayment) :=
  downpayment_override [exDownpaymentSchedule] [] 0
    (some { downpayment := some 0 }) (some exDownpaymentVariant)
    exDownpaymentVariant exDownpaymentSchedule rfl rfl rfl

/-- C4: with equal billing/duration intervals and `billingCount =
durationCount`, for an integer variant price `p` and integer effective
downpayment `d` the computed `recurringPrice` is exactly `p - d`. -/
theorem recurring_price_no_cycle_proration (schedules : List Schedule)
    (variants : List VariantWithSubscriptionFields) (now : ℤ)
    (input : Option StripeSubscriptionPricingInput)
    (variant0 : Option VariantWithSubscriptionFields)
    (v : VariantWithSubscriptionFields) (s : Schedule) (p d : ℤ)
    (hv : resolveVariant variants variant0 (input.bind (·.productVariantId)) = .ok v)
    (hs : getSchedule schedules v = .ok s)
    (heq : s.billingInterval = s.durationInterval)
    (hcnt : s.billingCount = s.durationCount)
    (hc0 : s.billingCount ≠ 0)
    (hp : v.price = (p : ℚ))
    (hd : effectiveDownpayment input s = (d : ℚ)) :
    ∃ r, getSubscriptionPricing schedules variants now input variant0 = .ok r ∧
      r.recurringPrice = p - d := by
  refine ⟨computePricing v.price s input now,
    getSubscriptionPricing_ok_iff.mpr ⟨v, s, hv, hs, heq, rfl⟩, ?_⟩
  have hbpd : billingsPerDuration s = 1 := by
    unfold billingsPerDuration
    rw [← hcnt]
    exact div_self hc0
  have hrp : (computePricing v.price s input now).recurringPrice =
      ⌊v.price - effectiveDownpayment input s / billingsPerDuration s⌋ := rfl
  rw [hrp, hbpd, hp, hd, div_one, ← Int.cast_sub, Int.floor_intCast]

/-- Witness for C4 at the monthly fixture: price 12000, downpayment 0. -/
theorem recurring_price_no_cycle_proration_witness :
    ∃ r, getSubscriptionPricing [exSchedule] [] 0 none (some exVariant) = .ok r ∧
      r.recurringPrice = 12000 - 0 :=
  recurring_price_no_cycle_proration [exSchedule] [] 0 none (some exVariant)
    exVariant exSchedule 12000 0 rfl rfl rfl rfl (by decide)
    (by norm_num [exVariant]) (by norm_num [effectiveDownpayment, exSchedule])

/-- C5: missing variant reference, unknown variant id and unmatched
schedule name each make the calculator fail with the corresponding
error, which propagates as the function value (no retry, no result). -/
theorem pricing_error_propagation (schedules : List Schedule)
    (variants : List VariantWithSubscriptionFields) (now : ℤ)
    (input : Option StripeSubscriptionPricingInput)
    (variant0 : Option VariantWithSubscriptionFields) :
    (variant0 = none → input.bind (·.productVariantId) = none →
      getSubscriptionPricing schedules variants now input variant0 =
        .error .missingInput) ∧
    (∀ pvid, variant0 = none → input.bind (·.productVariantId) = some pvid →
      variants.find? (fun v => v.id == pvid) = none →
      getSubscriptionPricing schedules variants now input variant0 =
        .error (.variantNotFound pvid)) ∧
    (∀ v, resolveVariant variants variant0 (input.bind (·.productVariantId)) = .ok v →
      schedules.find? (fun s => v.subscriptionSchedule == some s.name) = none →
      getSubscriptionPricing schedules variants now input variant0 =
        .error (.noScheduleFound v.subscriptionSchedule)) := by
  refine ⟨?_, ?_, ?_⟩
  · intro h0 hid
    unfold getSubscriptionPricing resolveVariant
    simp [h0, hid]
  · intro pvid h0 hid hfind
    unfold getSubscriptionPricing resolveVariant
    simp [h0, hid, hfind]
  · intro v hv hfind
    unfold getSubscriptionPricing getSchedule
    simp [hv, hfind]

/-- Witness for C5: all three error cases at concrete inputs. -/
theorem pricing_error_propagation_witness :
    getSubscriptionPricing [exSchedule] [] 0 none none = .error .missingInput ∧
    getSubscriptionPricing [exSchedule] [] 0
      (some { productVariantId := some 42 }) none = .error (.variantNotFound 42) ∧
    getSubscriptionPricing [exSchedule] [exOrphanVariant] 0 none
      (some exOrphanVariant) = .error (.noScheduleFound (some "does-not-exist")) :=
  ⟨(pricing_error_propagation [exSchedule] [] 0 none none).1 rfl rfl,
   (pricing_error_propagation [exSchedule] [] 0
      (some { productVariantId := some 42 }) none).2.1 42 rfl rfl rfl,
   (pricing_error_propagation [exSchedule] [exOrphanVariant] 0 none
      (some exOrphanVariant)).2.2 exOrphanVariant rfl rfl⟩

/-- C6 counterexample: for the schedule with `durationCount = 3` and
`billingCount = 2`, `billingsPerDuration` is the exact fraction `3/2` and
not the truncated integer quotient `1` the claim asserts. -/
theorem billingsPerDuration_not_truncated :
    billingsPerDuration exOddSchedule = 3 / 2 ∧
    billingsPerDuration exOddSchedule ≠ 1 := by
  constructor
  · norm_num [billingsPerDuration, exOddSchedule]
  · norm_num [billingsPerDuration, exOddSchedule]

/-- C6 (amended): `billingsPerDuration` is `durationCount / billingCount`
by exact division — there is no remainder check and no rejection (the
calculator still returns a result for a non-divisible ratio), and the
quotient is not truncated to an integer. -/
theorem billingsPerDuration_exact_division (schedules : List Schedule)
    (variants : List VariantWithSubscriptionFields) (now : ℤ)
    (input : Option StripeSubscriptionPricingInput)
    (variant0 : Option VariantWithSubscriptionFields)
    (v : VariantWithSubscriptionFields) (s : Schedule)
    (hv : resolveVariant variants variant0 (input.bind (·.productVariantId)) = .ok v)
    (hs : getSchedule schedules v = .ok s)
    (heq : s.billingInterval = s.durationInterval) :
    billingsPerDuration s = s.durationCount / s.billingCount ∧
    ∃ r, getSubscriptionPricing schedules variants now input variant0 = .ok r :=
  ⟨rfl, computePricing v.price s input now,
    getSubscriptionPricing_ok_iff.mpr ⟨v, s, hv, hs, heq, rfl⟩⟩

/-- Witness for the amended C6 at the non-divisible fixture (3 duration
cycles over 2 billing cycles). -/
theorem billingsPerDuration_exact_division_witness :
    billingsPerDuration exOddSchedule =
      exOddSchedule.durationCount / exOddSchedule.billingCount ∧
    ∃ r, getSubscriptionPricing [exOddSchedule] [] 0 none (some exOddVariant) =
      .ok r :=
  billingsPerDuration_exact_division [exOddSchedule] [] 0 none
    (some exOddVariant) exOddVariant exOddSchedule rfl rfl rfl

/-- C7: every successful pricing result satisfies
`amountDueNow = downpayment + totalProratedAmount` and
`totalProratedAmount = proratedDays * dayRate`. -/
theorem amount_due_now_invariant (schedules : List Schedule)
    (variants : List VariantWithSubscriptionFields) (now : ℤ)
    (input : Option StripeSubscriptionPricingInput)
    (variant0 : Option VariantWithSubscriptionFields)
    (r : StripeSubscriptionPricing)
    (h : getSubscriptionPricing schedules variants now input variant0 = .ok r) :
    r.amountDueNow = r.downpayment + r.totalProratedAmount ∧
    r.totalProratedAmount = (r.proratedDays : ℚ) * r.dayRate := by
  obtain ⟨v, s, hv, hs, heq, hr⟩ := getSubscriptionPricing_ok_iff.mp h
  subst hr
  exact ⟨rfl, rfl⟩

/-- Witness for C7 at the monthly fixture. -/
theorem amount_due_now_invariant_witness :
    exPricing.amountDueNow = exPricing.downpayment + exPricing.totalProratedAmount ∧
    exPricing.totalProratedAmount = (exPricing.proratedDays : ℚ) * exPricing.dayRate :=
  amount_due_now_invariant [exSchedule] [] 0 none (some exVariant) exPricing rfl

/-- C8: when the effective proration start (the input's start date, or
`now` when absent) is on/before the computed subscription start date, the
returned `proratedDays` is nonnegative, and so is `totalProratedAmount`
whenever the day rate is nonnegative. -/
theorem prorated_days_nonneg (schedules : List Schedule)
    (variants : List VariantWithSubscriptionFields) (now : ℤ)
    (input : Option StripeSubscriptionPricingInput)
    (variant0 : Option VariantWithSubscriptionFields)
    (r : StripeSubscriptionPricing)
    (h : getSubscriptionPricing schedules variants now input variant0 = .ok r)
    (hle : (input.bind (·.startDate)).getD now ≤ r.subscriptionStartDate) :
    0 ≤ r.proratedDays ∧ (0 ≤ r.dayRate → 0 ≤ r.totalProratedAmount) := by
  obtain ⟨v, s, hv, hs, heq, hr⟩ := getSubscriptionPricing_ok_iff.mp h
  subst hr
  have hle2 : (input.bind (·.startDate)).getD now ≤
      getNextStartDate now s.billingInterval s.startDate := hle
  have hdays : 0 ≤ (computePricing v.price s input now).proratedDays := by
    show 0 ≤ getDaysUntilNextStartDate ((input.bind (·.startDate)).getD now)
      (getNextStartDate now s.billingInterval s.startDate)
    unfold getDaysUntilNextStartDate
    omega
  refine ⟨hdays, fun hdr => ?_⟩
  show 0 ≤ ((computePricing v.price s input now).proratedDays : ℚ) *
    (computePricing v.price s input now).dayRate
  exact mul_nonneg (by exact_mod_cast hdays) hdr

/-- Witness for C8 at the monthly fixture (`now = 0`, no input start
date). -/
theorem prorated_days_nonneg_witness :
    0 ≤ exPricing.proratedDays ∧
    (0 ≤ exPricing.dayRate → 0 ≤ exPricing.totalProratedAmount) :=
  prorated_days_nonneg [exSchedule] [] 0 none (some exVariant) exPricing rfl
    (by decide)

/-- C9: a webhook whose `type` is not `setup_intent.succeeded` is only
logged: the handler returns normally (no error), enqueues no job,
changes no order state, adds no payment and writes no history. -/
theorem ignored_webhook_no_effect (env : HandlerEnv) (st : ServiceState)
    (webhook : IncomingStripeWebhook)
    (h : webhook.type ≠ "setup_intent.succeeded") :
    handlePaymentCompleteEvent env st webhook = (st, none) ∧
    (handlePaymentCompleteEvent env st webhook).1.jobs = st.jobs ∧
    (handlePaymentCompleteEvent env st webhook).1.orders = st.orders ∧
    (handlePaymentCompleteEvent env st webhook).1.payments = st.payments ∧
    (handlePaymentCompleteEvent env st webhook).1.history = st.history ∧
    (handlePaymentCompleteEvent env st webhook).2 = none := by
  have hmain : handlePaymentCompleteEvent env st webhook = (st, none) := by
    unfold handlePaymentCompleteEvent
    simp [h]
  exact ⟨hmain, by rw [hmain], by rw [hmain], by rw [hmain], by rw [hmain],
    by rw [hmain]⟩

/-- Witness for C9 at a concrete `payment_intent.succeeded` webhook. -/
theorem ignored_webhook_no_effect_witness :
    handlePaymentCompleteEvent exEnv exState exIgnoredWebhook = (exState, none) ∧
    (handlePaymentCompleteEvent exEnv exState exIgnoredWebhook).1.jobs = exState.jobs ∧
    (handlePaymentCompleteEvent exEnv exState exIgnoredWebhook).1.orders = exState.orders ∧
    (handlePaymentCompleteEvent exEnv exState exIgnoredWebhook).1.payments = exState.payments ∧
    (handlePaymentCompleteEvent exEnv exState exIgnoredWebhook).1.history = exState.history ∧
    (handlePaymentCompleteEvent exEnv exState exIgnoredWebhook).2 = none :=
  ignored_webhook_no_effect exEnv exState exIgnoredWebhook (by decide)

/-- C10: per order line, exactly one (recurring) subscription is created
when the computed downpayment is 0, and a second, non-prorated
downpayment subscription with the schedule's `durationInterval` and
`durationCount` is created exactly when the downpayment is nonzero. -/
theorem downpayment_subscription_rule (schedules : List Schedule) (now : ℤ)
    (variant : VariantWithSubscriptionFields)
    (pricing : StripeSubscriptionPricing)
    (h : getSubscriptionPricing schedules [] now none (some variant) = .ok pricing) :
    (pricing.downpayment = 0 →
      ∃ rec, subscriptionsForLine schedules now variant = .ok [rec] ∧
        rec.amount = (pricing.recurringPrice : ℚ) ∧
        rec.interval = pricing.interval ∧
        rec.intervalCount = pricing.intervalCount ∧
        rec.proration = true) ∧
    (pricing.downpayment ≠ 0 →
      ∃ rec dp s, getSchedule schedules variant = .ok s ∧
        subscriptionsForLine schedules now variant = .ok [rec, dp] ∧
        rec.amount = (pricing.recurringPrice : ℚ) ∧
        rec.proration = true ∧
        dp.amount = pricing.downpayment ∧
        dp.interval = s.durationInterval ∧
        dp.intervalCount = s.durationCount ∧
        dp.proration = false) := by
  obtain ⟨v, s, hv, hs, heq, hr⟩ := getSubscriptionPricing_ok_iff.mp h
  obtain rfl : variant = v := by simpa [resolveVariant] using hv
  constructor
  · intro h0
    refine ⟨{ amount := (pricing.recurringPrice : ℚ)
              interval := pricing.interval
              intervalCount := pricing.intervalCount
              startDate := pricing.subscriptionStartDate
              proration := true
              description := variant.name }, ?_, rfl, rfl, rfl, rfl⟩
    unfold subscriptionsForLine
    simp [h, h0]
  · intro h0
    refine ⟨{ amount := (pricing.recurringPrice : ℚ)
              interval := pricing.interval
              intervalCount := pricing.intervalCount
              startDate := pricing.subscriptionStartDate
              proration := true
              description := variant.name },
            { amount := pricing.downpayment
              interval := s.durationInterval
              intervalCount := s.durationCount
              startDate := pricing.subscriptionStartDate
              proration := false
              description := "Downpayment" },
            s, hs, ?_, rfl, rfl, rfl, rfl, rfl, rfl⟩
    unfold subscriptionsForLine
    simp [h, h0, hs]

/-- Witness for C10: the zero-downpayment fixture creates one
subscription; the nonzero-downpayment fixture creates two. -/
theorem downpayment_subscription_rule_witness :
    (∃ rec, subscriptionsForLine [exSchedule] 0 exVariant = .ok [rec] ∧
      rec.amount = (exPricing.recurringPrice : ℚ) ∧
      rec.interval = exPricing.interval ∧
      rec.intervalCount = exPricing.intervalCount ∧
      rec.proration = true) ∧
    (∃ rec dp s, getSchedule [exDownpaymentSchedule] exDownpaymentVariant = .ok s ∧
      subscriptionsForLine [exDownpaymentSchedule] 0 exDownpaymentVariant =
        .ok [rec, dp] ∧
      rec.amount = (exDpPricing.recurringPrice : ℚ) ∧
      rec.proration = true ∧
      dp.amount = exDpPricing.downpayment ∧
      dp.interval = s.durationInterval ∧
      dp.intervalCount = s.durationCount ∧
      dp.proration = false) :=
  ⟨(downpayment_subscription_rule [exSchedule] 0 exVariant exPricing rfl).1
      (by decide),
   (downpayment_subscription_rule [exDownpaymentSchedule] 0 exDownpaymentVariant
      exDpPricing rfl).2 (by decide)⟩

end Pinelab
